import Mathlib

/-!
Verification of the WeatherWise analysis pipeline
(src/streamlit_nasa_weather_app.py).

The dashboard analysis loop works on a pandas frame whose rows carry a
timestamp (we keep its calendar month and its day-of-year index) and a
numeric value.  Reals are modelled by rationals; the pandas mean of an
empty series is NaN, modelled here by the value none of Option.
-/

namespace WeatherWise

/-- One row of the long-form frame produced by load_opendap_data:
the calendar month of the timestamp, the day-of-year column doy
added by the loader, and the value column. -/
structure Row where
  month : ℕ
  doy   : ℕ
  value : ℚ
deriving DecidableEq, Repr

/-- The season chosen in the sidebar selectbox. -/
inductive Season
  | allYear
  | winter
  | spring
  | summer
  | autumn
deriving DecidableEq, Repr

/-- The month lists of the dictionary on line 195 of the source. -/
def seasonMonths : Season → List ℕ
  | Season.winter => [12, 1, 2]
  | Season.spring => [3, 4, 5]
  | Season.summer => [6, 7, 8]
  | Season.autumn => [9, 10, 11]
  | Season.allYear => []

/-- Lines 194-196: when the season is not "All year" the frame is
restricted to the rows whose month is in the season month list;
otherwise the frame is left untouched. -/
def seasonFilter (s : Season) (df : List Row) : List Row :=
  match s with
  | Season.allYear => df
  | _ => df.filter (fun r => decide (r.month ∈ seasonMonths s))

/-- The boolean series subset.value > threshold of line 198, as the
0/1 indicator pandas averages: 1 when the value strictly exceeds the
threshold, 0 otherwise. -/
def indicator (t v : ℚ) : ℚ :=
  if t < v then 1 else 0

/-- The pandas Series.mean: sum over length, NaN (none) on an empty
series. -/
def meanQ (l : List ℚ) : Option ℚ :=
  if l.length = 0 then none else some (l.sum / (l.length : ℚ))

/-- Line 197: subset = df[df.doy == day_of_year]. -/
def daySubset (df : List Row) (d : ℕ) : List Row :=
  df.filter (fun r => r.doy == d)

/-- Line 198: prob = (subset.value > threshold).mean() * 100.
The empty-subset mean is NaN, propagated as none. -/
def singleDayProb (df : List Row) (t : ℚ) (d : ℕ) : Option ℚ :=
  (meanQ ((daySubset df d).map (fun r => indicator t r.value))).map (fun m => m * 100)

/-- The groupby-apply lambda of line 207 on one (never empty) day
group g: (g.value > threshold).mean() * 100. -/
def groupProb (g : List Row) (t : ℚ) : ℚ :=
  (g.map (fun r => indicator t r.value)).sum / (g.length : ℚ) * 100

/-- Line 207: avg_probs = df.groupby("doy").apply(lambda g: ...),
one entry per day-of-year that occurs in the frame. -/
def annualCurve (df : List Row) (t : ℚ) : List (ℕ × ℚ) :=
  ((df.map Row.doy).dedup).map (fun d => (d, groupProb (daySubset df d) t))

/-! ### Helper lemmas about indicator sums -/

theorem indicator_nonneg (t v : ℚ) : 0 ≤ indicator t v := by
  unfold indicator; split <;> norm_num

theorem indicator_le_one (t v : ℚ) : indicator t v ≤ 1 := by
  unfold indicator; split <;> norm_num

theorem indicator_mono {t₁ t₂ : ℚ} (h : t₁ ≤ t₂) (v : ℚ) :
    indicator t₂ v ≤ indicator t₁ v := by
  unfold indicator
  by_cases h2 : t₂ < v
  · have h1 : t₁ < v := lt_of_le_of_lt h h2
    simp [h1, h2]
  · simp only [h2, if_false]
    split <;> norm_num

theorem indSum_nonneg (t : ℚ) :
    ∀ l : List Row, 0 ≤ (l.map (fun r => indicator t r.value)).sum := by
  intro l
  induction l with
  | nil => simp
  | cons a l ih =>
    simp only [List.map_cons, List.sum_cons]
    have := indicator_nonneg t a.value
    linarith

theorem indSum_le_length (t : ℚ) :
    ∀ l : List Row, (l.map (fun r => indicator t r.value)).sum ≤ (l.length : ℚ) := by
  intro l
  induction l with
  | nil => simp
  | cons a l ih =>
    simp only [List.map_cons, List.sum_cons, List.length_cons]
    have := indicator_le_one t a.value
    push_cast
    linarith

theorem indSum_eq_countP (t : ℚ) :
    ∀ l : List Row,
      (l.map (fun r => indicator t r.value)).sum
        = ((l.countP (fun r => decide (t < r.value)) : ℕ) : ℚ) := by
  intro l
  induction l with
  | nil => simp
  | cons a l ih =>
    simp only [List.map_cons, List.sum_cons, List.countP_cons]
    rw [ih]
    by_cases h : t < a.value
    · simp [indicator, h]
      ring
    · simp [indicator, h]

theorem indSum_antitone {t₁ t₂ : ℚ} (h : t₁ ≤ t₂) :
    ∀ l : List Row,
      (l.map (fun r => indicator t₂ r.value)).sum
        ≤ (l.map (fun r => indicator t₁ r.value)).sum := by
  intro l
  induction l with
  | nil => simp
  | cons a l ih =>
    simp only [List.map_cons, List.sum_cons]
    have := indicator_mono h a.value
    linarith

/-! ### Bridge lemmas -/

theorem daySubset_length_ne_zero {df : List Row} {d : ℕ}
    (h : daySubset df d ≠ []) : (daySubset df d).length ≠ 0 :=
  fun hh => h (List.length_eq_zero.mp hh)

theorem singleDayProb_eq_groupProb (df : List Row) (t : ℚ) (d : ℕ)
    (h : daySubset df d ≠ []) :
    singleDayProb df t d = some (groupProb (daySubset df d) t) := by
  have hlen : (daySubset df d).length ≠ 0 := daySubset_length_ne_zero h
  simp [singleDayProb, meanQ, groupProb, List.length_map, hlen]

theorem daySubset_ne_nil_of_mem {df : List Row} {d : ℕ}
    (h : d ∈ df.map Row.doy) : daySubset df d ≠ [] := by
  obtain ⟨r, hr, hd⟩ := List.mem_map.mp h
  have : r ∈ daySubset df d := List.mem_filter.mpr ⟨hr, by simp [hd]⟩
  exact List.ne_nil_of_mem this

theorem groupProb_nonneg (g : List Row) (t : ℚ) : 0 ≤ groupProb g t := by
  unfold groupProb
  have h1 := indSum_nonneg t g
  have h2 : (0 : ℚ) ≤ (g.length : ℚ) := by positivity
  exact mul_nonneg (div_nonneg h1 h2) (by norm_num)

theorem groupProb_le_hundred (g : List Row) (t : ℚ) : groupProb g t ≤ 100 := by
  unfold groupProb
  rcases Nat.eq_zero_or_pos g.length with h | h
  · rw [List.length_eq_zero.mp h]
    norm_num
  · have hs := indSum_le_length t g
    have hlen : (0 : ℚ) < (g.length : ℚ) := by exact_mod_cast h
    have hdiv : (g.map (fun r => indicator t r.value)).sum / (g.length : ℚ) ≤ 1 := by
      rw [div_le_one hlen]; exact hs
    linarith

/-! ### Claims about the exceedance computation -/

/-- Claim C1: when the day-of-year subset is empty, the single-day
probability computation produces NaN (the mean of an empty series,
modelled as none), never a plain numeric result such as 0. -/
theorem empty_day_prob_nan (df : List Row) (t : ℚ) (d : ℕ)
    (h : daySubset df d = []) :
    singleDayProb df t d = none ∧ ∀ q : ℚ, singleDayProb df t d ≠ some q := by
  have h1 : singleDayProb df t d = none := by simp [singleDayProb, meanQ, h]
  exact ⟨h1, fun q hq => by rw [h1] at hq; exact Option.noConfusion hq⟩

/-- A single record on day-of-year 100: day 200 has no data. -/
def noCoverageRows : List Row := [⟨7, 100, 20⟩]

/-- Witness for C1 at a concrete frame whose day 200 is empty. -/
theorem empty_day_prob_nan_witness :
    singleDayProb noCoverageRows 25 200 = none :=
  (empty_day_prob_nan noCoverageRows 25 200 (by decide)).1

/-- Claim C4: on a non-empty day subset the probability is the count
of records with value strictly above the threshold, divided by the
subset size, times 100; a value equal to the threshold contributes 0. -/
theorem single_day_prob_count_rule (df : List Row) (t : ℚ) (d : ℕ)
    (h : daySubset df d ≠ []) :
    singleDayProb df t d
      = some ((((daySubset df d).countP (fun r => decide (t < r.value)) : ℕ) : ℚ)
          / ((daySubset df d).length : ℚ) * 100)
    ∧ indicator t t = 0 := by
  refine ⟨?_, by simp [indicator]⟩
  rw [singleDayProb_eq_groupProb df t d h]
  unfold groupProb
  rw [indSum_eq_countP]

/-- Three observations on day-of-year 200, two of them above 30. -/
def threeYearRows : List Row := [⟨7, 200, 35⟩, ⟨7, 200, 20⟩, ⟨7, 200, 31⟩]

/-- Witness for C4: 2 exceedances out of 3 records give 2/3 of 100. -/
theorem single_day_prob_count_rule_witness :
    singleDayProb threeYearRows 30 200 = some ((2 : ℚ) / 3 * 100) := by
  rw [(single_day_prob_count_rule threeYearRows 30 200 (by decide)).1]
  norm_num [daySubset, threeYearRows]

/-- Claim C7: on a fixed non-empty day subset the exceedance
probability is non-increasing in the threshold. -/
theorem prob_antitone_in_threshold (df : List Row) (t₁ t₂ : ℚ) (d : ℕ)
    (hlt : t₁ < t₂) (h : daySubset df d ≠ []) :
    groupProb (daySubset df d) t₂ ≤ groupProb (daySubset df d) t₁ ∧
    singleDayProb df t₁ d = some (groupProb (daySubset df d) t₁) ∧
    singleDayProb df t₂ d = some (groupProb (daySubset df d) t₂) := by
  refine ⟨?_, singleDayProb_eq_groupProb df t₁ d h, singleDayProb_eq_groupProb df t₂ d h⟩
  unfold groupProb
  have hsum := indSum_antitone (le_of_lt hlt) (daySubset df d)
  have hlen : (0 : ℚ) < ((daySubset df d).length : ℚ) := by
    exact_mod_cast Nat.pos_of_ne_zero (daySubset_length_ne_zero h)
  have hdiv := (div_le_div_iff_of_pos_right hlen).mpr hsum
  linarith

/-- Witness for C7 with thresholds 25 < 30 on the day-200 subset. -/
theorem prob_antitone_in_threshold_witness :
    groupProb (daySubset threeYearRows 200) 30
      ≤ groupProb (daySubset threeYearRows 200) 25 :=
  (prob_antitone_in_threshold threeYearRows 25 30 200 (by norm_num) (by decide)).1

/-- Claim C8: every probability the dashboard computes, for the
single day and along the annual curve, lies between 0 and 100. -/
theorem prob_within_range (df : List Row) (t : ℚ) :
    (∀ d p, singleDayProb df t d = some p → 0 ≤ p ∧ p ≤ 100) ∧
    (∀ e ∈ annualCurve df t, 0 ≤ e.2 ∧ e.2 ≤ 100) := by
  constructor
  · intro d p hp
    by_cases h : daySubset df d = []
    · simp [singleDayProb, meanQ, h] at hp
    · rw [singleDayProb_eq_groupProb df t d h] at hp
      have := Option.some.inj hp
      exact this ▸ ⟨groupProb_nonneg _ _, groupProb_le_hundred _ _⟩
  · intro e he
    unfold annualCurve at he
    obtain ⟨d, _, rfl⟩ := List.mem_map.mp he
    exact ⟨groupProb_nonneg _ _, groupProb_le_hundred _ _⟩

/-- Witness for C8 at the concrete day-200 probability. -/
theorem prob_within_range_witness :
    0 ≤ ((2 : ℚ) / 3 * 100) ∧ ((2 : ℚ) / 3 * 100) ≤ 100 := by
  apply (prob_within_range threeYearRows 30).1 200
  rw [singleDayProb_eq_groupProb threeYearRows 30 200 (by decide)]
  norm_num [groupProb, daySubset, threeYearRows, indicator]

/-- Claim C9: the Winter filter keeps exactly the rows with month in
{12, 1, 2}, the other seasons analogously, and the All-year season is
the identity. -/
theorem season_filter_month_sets :
    (∀ df : List Row, seasonFilter Season.allYear df = df) ∧
    (∀ (df : List Row) (r : Row),
      r ∈ seasonFilter Season.winter df ↔ r ∈ df ∧ r.month ∈ [12, 1, 2]) ∧
    (∀ (df : List Row) (r : Row),
      r ∈ seasonFilter Season.spring df ↔ r ∈ df ∧ r.month ∈ [3, 4, 5]) ∧
    (∀ (df : List Row) (r : Row),
      r ∈ seasonFilter Season.summer df ↔ r ∈ df ∧ r.month ∈ [6, 7, 8]) ∧
    (∀ (df : List Row) (r : Row),
      r ∈ seasonFilter Season.autumn df ↔ r ∈ df ∧ r.month ∈ [9, 10, 11]) := by
  refine ⟨fun df => rfl, ?_, ?_, ?_, ?_⟩ <;>
    · intro df r
      simp [seasonFilter, seasonMonths, List.mem_filter]

theorem lookup_map_pairs (f : ℕ → ℚ) :
    ∀ l : List ℕ, l.Nodup → ∀ d ∈ l,
      (l.map (fun x => (x, f x))).lookup d = some (f d) := by
  intro l
  induction l with
  | nil => intro _ d hd; simp at hd
  | cons a l ih =>
    intro hnd d hd
    by_cases h : d = a
    · subst h
      simp [List.lookup]
    · have hdl : d ∈ l := by
        rcases List.mem_cons.mp hd with h1 | h1
        · exact absurd h1 h
        · exact h1
      have hbeq : (d == a) = false := by simp [h]
      simp only [List.map_cons, List.lookup, hbeq]
      exact ih hnd.of_cons d hdl

/-- Claim C10: when the target day-of-year occurs in the filtered
frame, the annual curve entry at that day equals the single-day
probability; both are the same ratio over the same day bucket. -/
theorem curve_agrees_single_day (df : List Row) (t : ℚ) (d : ℕ)
    (h : d ∈ df.map Row.doy) :
    (annualCurve df t).lookup d = singleDayProb df t d := by
  have hne : daySubset df d ≠ [] := daySubset_ne_nil_of_mem h
  rw [singleDayProb_eq_groupProb df t d hne]
  unfold annualCurve
  exact lookup_map_pairs (fun x => groupProb (daySubset df x) t)
    (df.map Row.doy).dedup (List.nodup_dedup _) d (List.mem_dedup.mpr h)

/-- Witness for C10 at day 200 of the three-record frame. -/
theorem curve_agrees_single_day_witness :
    (annualCurve threeYearRows 30).lookup 200 = singleDayProb threeYearRows 30 200 :=
  curve_agrees_single_day threeYearRows 30 200 (by decide)

/-! ### Unit handling of load_opendap_data (lines 164-166 and 188-191) -/

/-- 273.15, the Kelvin-to-Celsius offset of lines 166 and 190. -/
def kelvinOffset : ℚ := 27315 / 100

/-- The desc and unit fields of one entry of the DATASETS dictionary
(lines 103-128), kept as character lists. -/
structure DatasetInfo where
  desc : List Char
  unit : List Char
deriving DecidableEq, Repr

/-- Whether the pattern occurs at the head of the text. -/
def leadsWith : List Char → List Char → Bool
  | [], _ => true
  | _ :: _, [] => false
  | a :: as, b :: bs => a == b && leadsWith as bs

/-- The python substring membership test, case-sensitive: the pattern
occurs at some position of the text. -/
def containsToken (need hay : List Char) : Bool :=
  (List.range (hay.length + 1)).any (fun i => leadsWith need (hay.drop i))

/-- The capitalised word the membership tests of lines 165 and
173-174 look for in the desc field. -/
def temperatureToken : List Char :=
  ['T', 'e', 'm', 'p', 'e', 'r', 'a', 't', 'u', 'r', 'e']

/-- The unit string of line 189. -/
def celsiusUnit : List Char := ['°', 'C']

/-- Line 104-109: the MERRA-2 air temperature entry. -/
def merra2TempInfo : DatasetInfo :=
  ⟨['M', 'E', 'R', 'R', 'A', '-', '2', ' ', '2', 'D', ' ', 'a', 'i', 'r', ' ',
    't', 'e', 'm', 'p', 'e', 'r', 'a', 't', 'u', 'r', 'e', ' ', 'a', 't', ' ',
    '2', 'm', ' ', 'a', 'b', 'o', 'v', 'e', ' ', 'g', 'r', 'o', 'u', 'n', 'd', '.'],
   celsiusUnit⟩

/-- Line 110-115: the MERRA-2 precipitation entry. -/
def merra2PrecipInfo : DatasetInfo :=
  ⟨['M', 'E', 'R', 'R', 'A', '-', '2', ' ', 't', 'o', 't', 'a', 'l', ' ',
    'p', 'r', 'e', 'c', 'i', 'p', 'i', 't', 'a', 't', 'i', 'o', 'n', '.'],
   ['m', 'm', '/', 'd', 'a', 'y']⟩

/-- Line 116-121: the GLDAS air temperature entry. -/
def gldasTempInfo : DatasetInfo :=
  ⟨['G', 'L', 'D', 'A', 'S', ' ', '2', 'D', ' ', 'a', 'i', 'r', ' ',
    't', 'e', 'm', 'p', 'e', 'r', 'a', 't', 'u', 'r', 'e', ' ', 'a', 't', ' ',
    '2', 'm', ' ', 'a', 'b', 'o', 'v', 'e', ' ', 'g', 'r', 'o', 'u', 'n', 'd', '.'],
   celsiusUnit⟩

/-- Line 122-127: the GLDAS precipitation entry. -/
def gldasPrecipInfo : DatasetInfo :=
  ⟨['G', 'L', 'D', 'A', 'S', ' ', '2', 'D', ' ',
    'p', 'r', 'e', 'c', 'i', 'p', 'i', 't', 'a', 't', 'i', 'o', 'n', '.'],
   ['m', 'm', '/', 'h', 'r']⟩

/-- The four configured datasets of lines 103-128. -/
def datasets : List DatasetInfo :=
  [merra2TempInfo, merra2PrecipInfo, gldasTempInfo, gldasPrecipInfo]

/-- The test of lines 165 and 173-174: the word Temperature occurs,
case-sensitively, in the desc field. -/
def isTempDataset (d : DatasetInfo) : Bool :=
  containsToken temperatureToken d.desc

/-- Lines 164-166: when the desc test fires the loader rewrites the
whole value column from Kelvin to Celsius; otherwise the column is
untouched. -/
def convertSeries (d : DatasetInfo) (df : List Row) : List Row :=
  if isTempDataset d then df.map (fun r => { r with value := r.value - kelvinOffset }) else df

/-- Lines 188-190: the Kelvin default threshold is rewritten to
Celsius when the dataset unit field is the Celsius degree. -/
def thresholdFor (d : DatasetInfo) (defaultK : ℚ) : ℚ :=
  if d.unit = celsiusUnit then defaultK - kelvinOffset else defaultK

/-- Every configured desc spells temperature in lower case, so the
case-sensitive test of lines 165 and 173-174 never fires. -/
theorem configured_not_temperature : ∀ d ∈ datasets, isTempDataset d = false := by
  decide

/-- Counterexample to claim C2: for the MERRA-2 temperature dataset
the loader leaves the Kelvin series untouched (the case-sensitive
Temperature test fails on the lowercase desc), and the default
threshold is converted to Celsius, not to the native Kelvin unit;
the Kelvin sample 300 then counts as an exceedance of the converted
threshold 30 although it does not exceed 303.15 in the native unit. -/
theorem threshold_not_native_counterexample :
    isTempDataset merra2TempInfo = false ∧
    convertSeries merra2TempInfo [⟨1, 1, 300⟩] = [⟨1, 1, 300⟩] ∧
    thresholdFor merra2TempInfo (30315 / 100) = 30 ∧
    thresholdFor merra2TempInfo (30315 / 100) ≠ (30315 / 100 : ℚ) ∧
    indicator (thresholdFor merra2TempInfo (30315 / 100)) 300 = 1 ∧
    indicator (30315 / 100) 300 = 0 := by
  have hT : isTempDataset merra2TempInfo = false := by decide
  have ht : thresholdFor merra2TempInfo (30315 / 100) = 30 := by
    simp [thresholdFor, merra2TempInfo, kelvinOffset]
    norm_num
  refine ⟨hT, ?_, ht, ?_, ?_, ?_⟩
  · simp [convertSeries, hT]
  · rw [ht]; norm_num
  · rw [ht]; norm_num [indicator]
  · norm_num [indicator]

/-- Claim C2 amended: the series conversion is keyed on the
case-sensitive word Temperature in the desc, which no configured desc
contains, so every configured series keeps its native values (Kelvin
for the temperature sources); the default threshold of a Celsius-unit
dataset is nevertheless converted from Kelvin to Celsius, so the
comparison pairs native-Kelvin series values with a Celsius
threshold rather than being performed in the native unit. -/
theorem kelvin_series_celsius_threshold :
    (∀ d ∈ datasets, isTempDataset d = false) ∧
    (∀ d ∈ datasets, ∀ df : List Row, convertSeries d df = df) ∧
    (∀ tK : ℚ, thresholdFor merra2TempInfo tK = tK - kelvinOffset) ∧
    (∀ tK : ℚ, thresholdFor gldasTempInfo tK = tK - kelvinOffset) := by
  refine ⟨configured_not_temperature, ?_, ?_, ?_⟩
  · intro d hd df
    simp [convertSeries, configured_not_temperature d hd]
  · intro tK
    simp [thresholdFor, merra2TempInfo]
  · intro tK
    simp [thresholdFor, gldasTempInfo]

/-- Witness for the amended C2 at the MERRA-2 temperature dataset. -/
theorem kelvin_series_celsius_threshold_witness :
    convertSeries merra2TempInfo [⟨1, 1, 300⟩] = [⟨1, 1, 300⟩] ∧
    thresholdFor merra2TempInfo (30315 / 100) = 30315 / 100 - kelvinOffset :=
  ⟨kelvin_series_celsius_threshold.2.1 merra2TempInfo (by simp [datasets]) _,
   kelvin_series_celsius_threshold.2.2.1 (30315 / 100)⟩

/-! ### The try/except shape of load_opendap_data (lines 152-177) -/

/-- Outcome of the xarray open_dataset fetch inside the try block:
either a frame is produced, or any of the network, file and format
errors is raised (the bare except catches them all alike). -/
inductive FetchOutcome
  | ok (df : List Row)
  | failure
deriving DecidableEq, Repr

/-- What a load can hand to the caller: a frame, or an explicit
source-unavailable error (the outcome the spec prescribes). -/
inductive LoadResult
  | data (df : List Row)
  | sourceUnavailable
deriving DecidableEq, Repr

/-- Lines 170-177: the demo frame built in the except branch; the
base and scale of the normal draws are keyed on the same
case-sensitive Temperature test of the desc (25 and 5 when it fires,
5 and 2 otherwise), and since no configured desc fires it, every
configured dataset gets draws around 5 with scale 2; the seeded
generator draws are taken as the noise input. -/
def demoData (d : DatasetInfo) (noise : List ℚ) (dates : List (ℕ × ℕ)) : List Row :=
  (dates.zip noise).map (fun p =>
    ⟨p.1.1, p.1.2,
      (if isTempDataset d then (25 : ℚ) else 5)
        + (if isTempDataset d then (5 : ℚ) else 2) * p.2⟩)

/-- Lines 152-177: the loader returns the fetched frame on success
and falls back to the demo frame when the fetch raises. -/
def loadOpendapData (fetch : FetchOutcome) (d : DatasetInfo)
    (noise : List ℚ) (dates : List (ℕ × ℕ)) : LoadResult :=
  match fetch with
  | FetchOutcome.ok df => LoadResult.data df
  | FetchOutcome.failure => LoadResult.data (demoData d noise dates)

/-- Counterexample to claim C3: a failed fetch of the MERRA-2
temperature dataset is not propagated as a source-unavailable error;
the loader silently answers with the synthetic demo frame, whose
draws sit around base 5 with scale 2 because the dead Temperature
test also skips the 25/5 branch. -/
theorem fetch_failure_counterexample :
    loadOpendapData FetchOutcome.failure merra2TempInfo [0] [(1, 1)]
      = LoadResult.data [⟨1, 1, 5⟩] ∧
    loadOpendapData FetchOutcome.failure merra2TempInfo [0] [(1, 1)]
      ≠ LoadResult.sourceUnavailable := by
  have hT : isTempDataset merra2TempInfo = false := by decide
  constructor
  · simp [loadOpendapData, demoData, hT]
  · intro h
    simp [loadOpendapData] at h

/-- Claim C3 amended: on fetch failure the loader silently
substitutes the fabricated demo series and no load, successful or
failed, ever reports a source-unavailable error; for every configured
dataset the fabricated values are base 5 plus 2 times the draw, the
25/5 temperature branch being dead code. -/
theorem fetch_failure_silent_fallback :
    (∀ (d : DatasetInfo) (noise : List ℚ) (dates : List (ℕ × ℕ)),
      loadOpendapData FetchOutcome.failure d noise dates
        = LoadResult.data (demoData d noise dates)) ∧
    (∀ (fetch : FetchOutcome) (d : DatasetInfo) (noise : List ℚ) (dates : List (ℕ × ℕ)),
      loadOpendapData fetch d noise dates ≠ LoadResult.sourceUnavailable) ∧
    (∀ d ∈ datasets, ∀ (noise : List ℚ) (dates : List (ℕ × ℕ)),
      demoData d noise dates
        = (dates.zip noise).map (fun p => ⟨p.1.1, p.1.2, 5 + 2 * p.2⟩)) := by
  refine ⟨fun d noise dates => rfl, ?_, ?_⟩
  · intro fetch d noise dates
    cases fetch <;> simp [loadOpendapData]
  · intro d hd noise dates
    simp [demoData, configured_not_temperature d hd]

/-- Witness for the amended C3: the demo frame of the MERRA-2
temperature dataset at one date with draw 0 carries the value 5. -/
theorem fetch_failure_silent_fallback_witness :
    demoData merra2TempInfo [0] [(1, 1)] = [⟨1, 1, (5 : ℚ)⟩] := by
  rw [fetch_failure_silent_fallback.2.2 merra2TempInfo (by simp [datasets]) [0] [(1, 1)]]
  norm_num

/-! ### Spatial selection (lines 156-162) -/

/-- The opened xarray dataset: its latitude axis, longitude axis,
time axis, and the variable value at a grid cell. -/
structure GridDataset where
  lats  : List ℚ
  lons  : List ℚ
  times : List ℕ
  val   : ℚ → ℚ → ℕ → ℚ

/-- The xarray nearest-label scan along one coordinate axis: walk the
axis keeping the label whose absolute difference to the query is
smallest, the later label on an equidistant tie. -/
def nearestFrom (q b : ℚ) : List ℚ → ℚ
  | [] => b
  | c :: rest => if |c - q| ≤ |b - q| then nearestFrom q c rest else nearestFrom q b rest

/-- The label picked by sel(..., method nearest) on one axis. -/
def nearestCoord (grid : List ℚ) (q : ℚ) : Option ℚ :=
  match grid with
  | [] => none
  | b :: rest => some (nearestFrom q b rest)

/-- Line 157: ds[var].sel(lat=.., lon=.., method nearest) — the lat
axis and the lon axis are resolved independently, then the series at
the resolved pair is kept. -/
def selPoint (ds : GridDataset) (qlat qlon : ℚ) : List (ℕ × ℚ) :=
  match nearestCoord ds.lats qlat, nearestCoord ds.lons qlon with
  | some la, some lo => ds.times.map (fun tm => (tm, ds.val la lo tm))
  | _, _ => []

/-- The values at the grid cells inside the inclusive bounding box at
one timestamp (lines 159-160 before the mean). -/
def boxVals (ds : GridDataset) (latmin latmax lonmin lonmax : ℚ) (tm : ℕ) : List ℚ :=
  ((ds.lats.filter (fun la => decide (latmin ≤ la ∧ la ≤ latmax))).map (fun la =>
    (ds.lons.filter (fun lo => decide (lonmin ≤ lo ∧ lo ≤ lonmax))).map (fun lo =>
      ds.val la lo tm))).flatten

/-- Line 160: sel(lat=slice, lon=slice).mean over lat and lon — one
spatially averaged value per timestamp (NaN when the box is empty). -/
def selBox (ds : GridDataset) (latmin latmax lonmin lonmax : ℚ) : List (ℕ × Option ℚ) :=
  ds.times.map (fun tm => (tm, meanQ (boxVals ds latmin latmax lonmin lonmax tm)))

/-- The exceedance contribution of one timestamp of a bounding-box
series: the threshold test of line 198 applied to the value the
series carries, which is the spatial mean. -/
def boxExceedFlag (ds : GridDataset) (latmin latmax lonmin lonmax t : ℚ) (tm : ℕ) :
    Option ℚ :=
  (meanQ (boxVals ds latmin latmax lonmin lonmax tm)).map (fun m => indicator t m)

theorem nearestFrom_self_or_mem (q : ℚ) :
    ∀ (l : List ℚ) (b : ℚ), nearestFrom q b l = b ∨ nearestFrom q b l ∈ l := by
  intro l
  induction l with
  | nil => intro b; left; rfl
  | cons c rest ih =>
    intro b
    unfold nearestFrom
    split
    · rcases ih c with h | h
      · right; rw [h]; exact List.mem_cons_self c rest
      · right; exact List.mem_cons_of_mem c h
    · rcases ih b with h | h
      · left; exact h
      · right; exact List.mem_cons_of_mem c h

theorem nearestFrom_min (q : ℚ) :
    ∀ (l : List ℚ) (b : ℚ),
      |nearestFrom q b l - q| ≤ |b - q| ∧
      ∀ c ∈ l, |nearestFrom q b l - q| ≤ |c - q| := by
  intro l
  induction l with
  | nil =>
    intro b
    exact ⟨le_refl _, by intro c hc; simp at hc⟩
  | cons c rest ih =>
    intro b
    unfold nearestFrom
    split
    · next hle =>
      refine ⟨le_trans (ih c).1 hle, ?_⟩
      intro x hx
      rcases List.mem_cons.mp hx with rfl | hx
      · exact (ih x).1
      · exact (ih c).2 x hx
    · next hgt =>
      have hbc : |b - q| ≤ |c - q| := le_of_lt (not_le.mp hgt)
      refine ⟨(ih b).1, ?_⟩
      intro x hx
      rcases List.mem_cons.mp hx with rfl | hx
      · exact le_trans (ih b).1 hbc
      · exact (ih b).2 x hx

theorem nearestCoord_spec {grid : List ℚ} {q x : ℚ}
    (h : nearestCoord grid q = some x) :
    x ∈ grid ∧ ∀ c ∈ grid, |x - q| ≤ |c - q| := by
  cases grid with
  | nil => simp [nearestCoord] at h
  | cons b rest =>
    simp only [nearestCoord, Option.some.injEq] at h
    subst h
    constructor
    · rcases nearestFrom_self_or_mem q rest b with h1 | h1
      · rw [h1]; exact List.mem_cons_self b rest
      · exact List.mem_cons_of_mem b h1
    · intro c hc
      rcases List.mem_cons.mp hc with rfl | hc
      · exact (nearestFrom_min q rest c).1
      · exact (nearestFrom_min q rest b).2 c hc

/-- Claim C5 amended: point selection resolves each coordinate axis
independently — it keeps the series at the grid latitude of smallest
absolute difference to the query latitude and the grid longitude of
smallest absolute difference to the query longitude.  This per-axis
pair need not be the haversine-minimal pair. -/
theorem point_selection_per_axis_nearest (ds : GridDataset) (qlat qlon la lo : ℚ)
    (hla : nearestCoord ds.lats qlat = some la)
    (hlo : nearestCoord ds.lons qlon = some lo) :
    la ∈ ds.lats ∧ lo ∈ ds.lons ∧
    (∀ c ∈ ds.lats, |la - qlat| ≤ |c - qlat|) ∧
    (∀ c ∈ ds.lons, |lo - qlon| ≤ |c - qlon|) ∧
    selPoint ds qlat qlon = ds.times.map (fun tm => (tm, ds.val la lo tm)) := by
  have h1 := nearestCoord_spec hla
  have h2 := nearestCoord_spec hlo
  refine ⟨h1.1, h2.1, h1.2, h2.2, ?_⟩
  unfold selPoint
  rw [hla, hlo]

/-- A grid with latitudes 60 and 90 and the single longitude 180. -/
def pointDemoGrid : GridDataset :=
  ⟨[60, 90], [180], [0], fun _ _ _ => 0⟩

/-- Witness for the amended C5 on the demo grid queried at (60, 0). -/
theorem point_selection_per_axis_nearest_witness :
    (60 : ℚ) ∈ pointDemoGrid.lats ∧ (180 : ℚ) ∈ pointDemoGrid.lons :=
  have h := point_selection_per_axis_nearest pointDemoGrid 60 0 60 180
    (by norm_num [pointDemoGrid, nearestCoord, nearestFrom])
    (by norm_num [pointDemoGrid, nearestCoord, nearestFrom])
  ⟨h.1, h.2.1⟩

/-- Modelled from the spec: degrees to radians. -/
noncomputable def degToRad (d : ℝ) : ℝ := d * Real.pi / 180

/-- Modelled from the spec: the haversine formula value a whose
arcsine of square root gives half the central angle. -/
noncomputable def haversineA (lat1 lon1 lat2 lon2 : ℝ) : ℝ :=
  Real.sin ((lat2 - lat1) / 2) ^ 2 +
    Real.cos lat1 * Real.cos lat2 * Real.sin ((lon2 - lon1) / 2) ^ 2

/-- Modelled from the spec: great-circle distance on a sphere of
radius 6371 km between two points given in degrees. -/
noncomputable def haversineDistDeg (lat1 lon1 lat2 lon2 : ℝ) : ℝ :=
  2 * 6371 * Real.arcsin (Real.sqrt
    (haversineA (degToRad lat1) (degToRad lon1) (degToRad lat2) (degToRad lon2)))

/-- Counterexample to claim C5: on the grid with latitude axis
[60, 90] and longitude axis [180], queried at the point (60, 0), the
code resolves latitude 60 and longitude 180, yet the other pair
present in the data, (90, 180), is strictly closer by the haversine
great-circle distance on the 6371 km sphere; the selection is not
haversine-minimal. -/
theorem point_selection_not_haversine :
    nearestCoord [(60 : ℚ), 90] 60 = some 60 ∧
    nearestCoord [(180 : ℚ)] 0 = some 180 ∧
    haversineDistDeg 60 0 90 180 < haversineDistDeg 60 0 60 180 := by
  refine ⟨by norm_num [nearestCoord, nearestFrom], by norm_num [nearestCoord, nearestFrom], ?_⟩
  have e90 : degToRad 90 = Real.pi / 2 := by unfold degToRad; ring
  have e60 : degToRad 60 = Real.pi / 3 := by unfold degToRad; ring
  have e180 : degToRad 180 = Real.pi := by unfold degToRad; ring
  have e0 : degToRad 0 = 0 := by unfold degToRad; ring
  have hA1 : haversineA (degToRad 60) (degToRad 0) (degToRad 90) (degToRad 180)
      = 1 / 2 - Real.sqrt 3 / 4 := by
    rw [e90, e60, e180, e0]
    unfold haversineA
    rw [show (Real.pi / 2 - Real.pi / 3) / 2 = Real.pi / 12 by ring,
      show (Real.pi - 0) / 2 = Real.pi / 2 by ring,
      Real.cos_pi_div_two, Real.sin_pi_div_two, Real.sin_sq_eq_half_sub,
      show 2 * (Real.pi / 12) = Real.pi / 6 by ring, Real.cos_pi_div_six]
    ring
  have hA2 : haversineA (degToRad 60) (degToRad 0) (degToRad 60) (degToRad 180)
      = 1 / 4 := by
    rw [e60, e180, e0]
    unfold haversineA
    rw [show (Real.pi / 3 - Real.pi / 3) / 2 = 0 by ring,
      show (Real.pi - 0) / 2 = Real.pi / 2 by ring,
      Real.sin_zero, Real.sin_pi_div_two, Real.cos_pi_div_three]
    norm_num
  have s3lt : Real.sqrt 3 < 2 := by
    have h1 : Real.sqrt 3 < Real.sqrt 4 := Real.sqrt_lt_sqrt (by norm_num) (by norm_num)
    have h2 : Real.sqrt 4 = 2 := by
      rw [show (4 : ℝ) = 2 ^ 2 by norm_num, Real.sqrt_sq (by norm_num)]
    linarith
  have s3gt : 1 < Real.sqrt 3 := by
    have h1 : Real.sqrt 1 < Real.sqrt 3 := Real.sqrt_lt_sqrt (by norm_num) (by norm_num)
    rwa [Real.sqrt_one] at h1
  have hnn : (0 : ℝ) ≤ 1 / 2 - Real.sqrt 3 / 4 := by linarith
  have hlt : 1 / 2 - Real.sqrt 3 / 4 < 1 / 4 := by linarith
  have hs : Real.sqrt (1 / 2 - Real.sqrt 3 / 4) < Real.sqrt (1 / 4) :=
    Real.sqrt_lt_sqrt hnn hlt
  have hq : Real.sqrt (1 / 4) = 1 / 2 := by
    rw [show (1 / 4 : ℝ) = (1 / 2) ^ 2 by norm_num, Real.sqrt_sq (by norm_num)]
  have hmem1 : Real.sqrt (1 / 2 - Real.sqrt 3 / 4) ∈ Set.Icc (-1 : ℝ) 1 := by
    constructor
    · have := Real.sqrt_nonneg (1 / 2 - Real.sqrt 3 / 4); linarith
    · rw [hq] at hs; linarith
  have hmem2 : Real.sqrt (1 / 4) ∈ Set.Icc (-1 : ℝ) 1 := by
    rw [hq]; constructor <;> norm_num
  have harc : Real.arcsin (Real.sqrt (1 / 2 - Real.sqrt 3 / 4))
      < Real.arcsin (Real.sqrt (1 / 4)) :=
    Real.strictMonoOn_arcsin hmem1 hmem2 hs
  unfold haversineDistDeg
  rw [hA1, hA2]
  exact mul_lt_mul_of_pos_left harc (by norm_num)

/-- Claim C6: a bounding-box series carries, at each timestamp, the
mean of the in-box point values, and the threshold test is applied to
that mean — spatial averaging happens before thresholding. -/
theorem bbox_mean_before_threshold (ds : GridDataset) (lm lM om oM t : ℚ) (tm : ℕ)
    (htm : tm ∈ ds.times) (hne : boxVals ds lm lM om oM tm ≠ []) :
    (tm, some ((boxVals ds lm lM om oM tm).sum / ((boxVals ds lm lM om oM tm).length : ℚ)))
      ∈ selBox ds lm lM om oM ∧
    boxExceedFlag ds lm lM om oM t tm
      = some (indicator t
          ((boxVals ds lm lM om oM tm).sum / ((boxVals ds lm lM om oM tm).length : ℚ))) := by
  have hlen : (boxVals ds lm lM om oM tm).length ≠ 0 :=
    fun hh => hne (List.length_eq_zero.mp hh)
  have hmean : meanQ (boxVals ds lm lM om oM tm)
      = some ((boxVals ds lm lM om oM tm).sum / ((boxVals ds lm lM om oM tm).length : ℚ)) := by
    simp [meanQ, hlen]
  constructor
  · unfold selBox
    refine List.mem_map.mpr ⟨tm, htm, ?_⟩
    rw [hmean]
  · unfold boxExceedFlag
    rw [hmean]
    rfl

/-- Two stations at 20 and 30 degrees inside one box. -/
def twoStationGrid : GridDataset :=
  ⟨[0], [0, 10], [0], fun _ lo _ => if lo = 0 then 20 else 30⟩

/-- Witness for C6: the box carrying stations 20 and 30 yields the
series value 25 at the timestamp; the strict test against threshold
25 contributes a non-exceedance (flag 0), while the mean of the two
individual percentage flags would be 50. -/
theorem bbox_mean_before_threshold_witness :
    ((0 : ℕ), some (25 : ℚ)) ∈ selBox twoStationGrid 0 0 0 10 ∧
    boxExceedFlag twoStationGrid 0 0 0 10 25 0 = some 0 ∧
    meanQ [100 * indicator 25 20, 100 * indicator 25 30] = some 50 := by
  have hbv : boxVals twoStationGrid 0 0 0 10 0 = [20, 30] := by
    norm_num [boxVals, twoStationGrid]
  have h := bbox_mean_before_threshold twoStationGrid 0 0 0 10 25 0
    (by simp [twoStationGrid]) (by rw [hbv]; simp)
  have e : (([20, 30] : List ℚ).sum / ((([20, 30] : List ℚ).length : ℕ) : ℚ)) = 25 := by
    norm_num
  refine ⟨?_, ?_, by norm_num [meanQ, indicator]⟩
  · have h1 := h.1
    rw [hbv, e] at h1
    exact h1
  · have h2 := h.2
    rw [hbv, e] at h2
    rw [h2]
    norm_num [indicator]

end WeatherWise
